import Mathlib

/-!
Verification development for the `svg-to-avif` migration script
(`src/index.js`).  The script finds large SVG files, converts each to an
AVIF artifact through a browser-driven session, keeps the artifact only
when it is smaller than the source, rewrites textual references to the
old filename, and deletes the original.

The definitions below are a shallow embedding of the script's pure logic:
  * JavaScript string primitives used by the code (`String.prototype.includes`,
    `String.prototype.replace` with a plain-string pattern, `new RegExp(p, "g")`
    global replacement on the regex fragment the code can build from a
    filename, `Number(...)`, `Math.round`);
  * the candidate selector of `main` (both observed variants);
  * the size gate and the effectful skeleton of `convert`, modelled as a
    function on an explicit filesystem / browser state;
  * the per-file loop of `updateReferences`.
-/

/-- JavaScript `haystack.includes(needle)` on a character list:
`needle` occurs as a contiguous substring. -/
def containsList (needle : List Char) : List Char → Bool
  | [] => needle.isEmpty
  | c :: cs => needle.isPrefixOf (c :: cs) || containsList needle cs

/-- JavaScript `s.includes(needle)`. -/
def containsStr (s needle : String) : Bool :=
  containsList needle.data s.data

/-- JavaScript `s.replace(pat, repl)` with a plain-string `pat`:
only the first occurrence is replaced (list form). -/
def replaceFirstList (pat repl : List Char) : List Char → List Char
  | [] => if pat.isPrefixOf ([] : List Char) then repl else []
  | c :: cs =>
    if pat.isPrefixOf (c :: cs) then repl ++ (c :: cs).drop pat.length
    else c :: replaceFirstList pat repl cs

/-- JavaScript `s.replace(pat, repl)` with a plain-string pattern
(the replacement strings used by the script contain no `$`). -/
def replaceFirst (s pat repl : String) : String :=
  ⟨replaceFirstList pat.data repl.data s.data⟩

/-- Fuel-driven replacement of every literal occurrence of `pat`; the fuel
is instantiated with the length of the scanned list, which is always enough
because each step consumes at least one character. -/
def literalReplaceAllFuel (pat repl : List Char) : Nat → List Char → List Char
  | _, [] => []
  | 0, l => l
  | fuel + 1, c :: cs =>
    if pat ≠ [] ∧ pat.isPrefixOf (c :: cs) then
      repl ++ literalReplaceAllFuel pat repl fuel ((c :: cs).drop pat.length)
    else c :: literalReplaceAllFuel pat repl fuel cs

/-- Modelled from the spec: literal-substring global replacement — every
literal occurrence of `pat` in `s` is replaced by `repl`, nothing else
changes.  This is the behaviour the spec demands of the reference
rewriter, stated independently of the code's regex-based implementation
so the two can be compared. -/
def specLiteralReplaceAll (s pat repl : String) : String :=
  ⟨literalReplaceAllFuel pat.data repl.data s.data.length s.data⟩

/-- `path.join(a, b)` for the well-formed directory/name pairs the script
produces (no trailing separators, no `..` segments). -/
def pathJoin (a b : String) : String := a ++ "/" ++ b

/-- `path.basename(p)` on `/`-separated relative paths: the part after
the last separator. -/
def pathBasename (p : String) : String :=
  ⟨p.data.foldl (fun acc c => if c = '/' then [] else acc ++ [c]) []⟩

/-- `path.dirname(p)` on `/`-separated relative paths: the part before
the last separator, `"."` when there is none. -/
def pathDirname (p : String) : String :=
  if p.data.contains '/' then
    ⟨((p.data.reverse.dropWhile (· ≠ '/')).tail).reverse⟩
  else "."

/-- A compiled token of the regex fragment reachable from
`new RegExp(originalName, "g")` when `originalName` is a filename:
a literal character, or the `.` wildcard. -/
inductive RTok where
  | lit (c : Char)
  | any
deriving DecidableEq

/-- Compile a JavaScript regex source string into a token list, tracking
group-parenthesis depth.  Parentheses form capturing groups (the script's
replacement strings never use `$n`, so captures only group); `.` is the
any-character class; quantifiers, classes, alternation, anchors and
escapes are outside the modelled fragment and yield `none`, as does an
unbalanced parenthesis (a `SyntaxError` in JavaScript). -/
def compilePat : List Char → Nat → Option (List RTok)
  | [], 0 => some []
  | [], _ + 1 => none
  | c :: rest, d =>
    if c = '(' then compilePat rest (d + 1)
    else if c = ')' then
      match d with
      | 0 => none
      | d' + 1 => compilePat rest d'
    else if c = '.' then (compilePat rest d).map (RTok.any :: ·)
    else if c = '*' ∨ c = '+' ∨ c = '?' ∨ c = '[' ∨ c = ']' ∨
            c = Char.ofNat 123 ∨ c = Char.ofNat 125 ∨ c = '|' ∨
            c = Char.ofNat 94 ∨ c = '$' ∨ c = Char.ofNat 92 then none
    else (compilePat rest d).map (RTok.lit c :: ·)

/-- JavaScript line terminators, which `.` does not match. -/
def isLineTerminator (c : Char) : Bool :=
  c = Char.ofNat 10 ∨ c = Char.ofNat 13 ∨ c = Char.ofNat 8232 ∨ c = Char.ofNat 8233

/-- Match a token list at the head of the input, returning the remaining
input on success.  The fragment has no quantifiers or alternation, so
matching is deterministic. -/
def toksMatch : List RTok → List Char → Option (List Char)
  | [], rest => some rest
  | _ :: _, [] => none
  | t :: ts, c :: cs =>
    match t with
    | .lit l => if c = l then toksMatch ts cs else none
    | .any => if isLineTerminator c then none else toksMatch ts cs

/-- Left-to-right global-replacement scan of a compiled pattern, as the
`g` flag performs it: at each position try to match; on a match consume
it and emit the replacement (a zero-width match emits the replacement and
advances one character).  Fuel is instantiated with the input length,
which suffices since every step consumes at least one character. -/
def replaceScanFuel (toks : List RTok) (repl : List Char) : Nat → List Char → List Char
  | _, [] => (match toksMatch toks [] with | some _ => repl | none => [])
  | 0, l => l
  | fuel + 1, c :: cs =>
    match toksMatch toks (c :: cs) with
    | some rest =>
      if rest.length = cs.length + 1 then repl ++ c :: replaceScanFuel toks repl fuel cs
      else repl ++ replaceScanFuel toks repl fuel rest
    | none => c :: replaceScanFuel toks repl fuel cs

/-- JavaScript `s.replace(new RegExp(pat, "g"), repl)` on the modelled
regex fragment; `none` when `pat` falls outside the fragment or `repl`
uses `$`-substitutions. -/
def jsRegexReplaceAll (pat repl s : String) : Option String :=
  match compilePat pat.data 0 with
  | none => none
  | some toks =>
    if repl.data.contains '$' then none
    else some ⟨replaceScanFuel toks repl.data s.data.length s.data⟩

/-- Value of a decimal digit list. -/
def natVal (l : List Char) : Nat :=
  l.foldl (fun acc c => acc * 10 + (c.toNat - 48)) 0

/-- Decimal parse of a non-empty character list as a scaled integer
`(mantissa, exponent)` denoting `mantissa / 10 ^ exponent`: digits with an
optional single fractional part (`"1"`, `"1.5"`, `"1."`, `".5"`); anything
else is `NaN` (`none`). -/
def parseDecScaled (l : List Char) : Option (ℤ × ℕ) :=
  let intPart := l.takeWhile (·.isDigit)
  let rest := l.drop intPart.length
  match rest with
  | [] => if intPart.isEmpty then none else some ((natVal intPart : ℤ), 0)
  | c :: frac =>
    if c = '.' ∧ frac.all (·.isDigit) ∧ ¬(intPart.isEmpty ∧ frac.isEmpty) then
      some ((natVal intPart * 10 ^ frac.length + natVal frac : ℤ), frac.length)
    else none

/-- JavaScript `Number(s)` on the fragment the script feeds it: the empty
string is `0`, plain decimal numerals take their value, and any other
string is `NaN`, modelled as `none`.  (Whitespace trimming, signs,
exponents and hex forms are outside the fragment and also map to `none`.) -/
def jsNumber (s : String) : Option ℚ :=
  match s.data with
  | [] => some 0
  | l => (parseDecScaled l).map (fun p => (p.1 : ℚ) / 10 ^ p.2)

/-- JavaScript `Math.round(q)`: half-up rounding, `⌊q + 1/2⌋`. -/
def jsRound (q : ℚ) : ℤ :=
  ⌊q + 1/2⌋

/-- The script's width map (src/index.js line 158):
`Math.round(3.12476 * Number(width) + 0.196661)`. -/
def targetWidth (w : ℚ) : ℤ :=
  jsRound (312476 / 100000 * w + 196661 / 1000000)

/-- One attempt of the lazy capture `(.*?)"` at a fixed start: the
shortest run of non-line-terminator characters up to a closing quote;
`none` when a line terminator (unmatchable by `.`) intervenes. -/
def captureToQuote : List Char → Option (List Char)
  | [] => none
  | c :: cs =>
    if c = Char.ofNat 34 then some []
    else if isLineTerminator c then none
    else (captureToQuote cs).map (c :: ·)

/-- `/<svg width="(.*?)"/.exec(content)?.[1]` on a character list: scan
left to right for the literal head `<svg width="`, then lazily capture up
to the next quote; a failed attempt falls through to later positions. -/
def execSvgWidthList : List Char → Option (List Char)
  | [] => none
  | c :: cs =>
    if ("<svg width=\"".data).isPrefixOf (c :: cs) then
      match captureToQuote ((c :: cs).drop ("<svg width=\"".data).length) with
      | some cap => some cap
      | none => execSvgWidthList cs
    else execSvgWidthList cs

/-- The width-attribute extraction of `main`:
`/<svg width="(.*?)"/.exec(content)?.[1]`. -/
def execSvgWidth (content : String) : Option String :=
  (execSvgWidthList content.data).map (⟨·⟩)

/-- The record built for each accepted file in `main`. -/
structure Candidate where
  path : String
  dir : String
  name : String
  content : String
  width : Option Int
deriving DecidableEq

/-- The per-file selection step of `main` (src/index.js lines 135-160):
reject files smaller than 10 KiB, then reject a missing or empty captured
width (`if (!width) return null`), otherwise build the record; the width
field is `none` when `Number(width)` is `NaN`. -/
def selectorV1 (currentDir file : String) (size : Nat) (content : String) : Option Candidate :=
  let filePath := pathJoin currentDir file
  if size < 10 * 1024 then none
  else
    match execSvgWidth content with
    | none => none
    | some w =>
      if w = "" then none
      else some { path := filePath, dir := pathDirname filePath, name := pathBasename file,
                  content := content, width := (jsNumber w).map targetWidth }

/-- The selection step of the related variant of `main` (src/index.js
lines 299-317): no size threshold; requires both a non-empty captured
width and an `<image` occurrence (`if (!width || !image) return null`). -/
def selectorV2 (currentDir file : String) (content : String) : Option Candidate :=
  let filePath := pathJoin currentDir file
  match execSvgWidth content with
  | none => none
  | some w =>
    if w = "" ∨ ¬ containsStr content "<image" then none
    else some { path := filePath, dir := pathDirname filePath, name := pathBasename file,
                content := content, width := (jsNumber w).map targetWidth }

/-- The outcome of the size gate. -/
inductive Decision where
  | KeepArtifact
  | KeepOriginal
deriving DecidableEq

/-- The size gate of `convert` (src/index.js line 101):
`if (avifStats.size >= svgStats.size)` keep the SVG, else replace it. -/
def outcomeGate (artifactSize sourceSize : Nat) : Decision :=
  if artifactSize ≥ sourceSize then Decision.KeepOriginal else Decision.KeepArtifact

/-- A text file visited by the reference-rewrite scan: the outcome of its
`fs.readFile` (contents, or a raised I/O error) and whether its
`fs.writeFile` would raise. -/
structure TextFile where
  readResult : Except Unit String
  writeFails : Bool

/-- Per-file outcome of the rewrite scan. -/
inductive FileOutcome where
  | updated (newContent : String)
  | unchanged
  | failed
deriving DecidableEq

/-- The body of the `for` loop of `updateReferences` (src/index.js lines
28-43): read the file; when its content includes `originalName`, replace
via `new RegExp(originalName, "g")` and write the result back.  Any error
raised inside the body — unreadable file, invalid regex, unwritable file —
is caught by the surrounding `try`/`catch` and logged, yielding `failed`;
a pattern outside the modelled regex fragment is also mapped to `failed`. -/
def processFile (originalName newName : String) (f : TextFile) : FileOutcome :=
  match f.readResult with
  | .error _ => .failed
  | .ok content =>
    if containsStr content originalName then
      match jsRegexReplaceAll originalName newName content with
      | none => .failed
      | some updated => if f.writeFails then .failed else .updated updated
    else .unchanged

/-- The `for` loop of `updateReferences` over the globbed text files:
each file is processed in order, failures caught per file. -/
def updateReferences (originalName newName : String) : List TextFile → List FileOutcome
  | [] => []
  | f :: rest => processFile originalName newName f :: updateReferences originalName newName rest

/-- Filesystem state as a map from path to byte size (`none` = absent). -/
def Fs : Type := String → Option Nat

/-- Errors raised by `fs` operations in the modelled fragment. -/
inductive FsError where
  | ENOENT
deriving DecidableEq

/-- `download.saveAs(p)` / writing a file of `n` bytes at `p`
(overwrites an existing file). -/
def fsWrite (fs : Fs) (p : String) (n : Nat) : Fs :=
  fun q => if q = p then some n else fs q

/-- `fs.unlink(p)`: removes the file, or raises `ENOENT` when it is
absent. -/
def fsUnlink (fs : Fs) (p : String) : Except FsError Fs :=
  match fs p with
  | some _ => .ok (fun q => if q = p then none else fs q)
  | none => .error .ENOENT

/-- Abstract outcome of the browser-driven part of one conversion session:
either some awaited step raises after the browser is open (navigation,
UI interaction, download — all bounded by the 300000 ms default timeout),
or both download/save steps complete, leaving an artifact of the given
byte size at the artifact path. -/
inductive SessionOutcome where
  | raises
  | completes (artifactSize : Nat)
deriving DecidableEq

/-- Observable result of one `convert(file)` call: the filesystem
afterwards, whether the launched browser is still open, and whether the
call rejected (raised). -/
structure ConvertResult where
  fs : Fs
  browserOpen : Bool
  raised : Bool

/-- The derived base name used both for the artifact (src/index.js line
53) and as the rewrite target `newName` (line 112):
`file.name.replace(".svg", ".avif")`. -/
def deriveNewName (name : String) : String :=
  replaceFirst name ".svg" ".avif"

/-- The artifact path of `convert` (src/index.js line 53):
`path.join(file.dir, file.name.replace(".svg", ".avif"))`. -/
def avifPathOf (file : Candidate) : String :=
  pathJoin file.dir (deriveNewName file.name)

/-- The effectful skeleton of `convert` (src/index.js lines 46-122),
after the browser is launched: the session either raises (no `finally`
protects the browser, so it stays open and the error propagates) or saves
the artifact; then `fs.stat` both files; when the artifact is not smaller,
unlink it, close the browser and return; otherwise run `updateReferences`
(whose own fatal error — modelled by `rewriteFatal` — propagates before
the browser is closed), close the browser, and unlink the original.
Reference rewriting touches only text-file contents, which this
size-tracking state does not record. -/
def convertV1 (fsIn : Fs) (file : Candidate) (session : SessionOutcome)
    (rewriteFatal : Bool) : ConvertResult :=
  match session with
  | .raises => ⟨fsIn, true, true⟩
  | .completes asize =>
    let avifPath := avifPathOf file
    let fs1 := fsWrite fsIn avifPath asize
    match fs1 avifPath, fs1 file.path with
    | some avifSize, some svgSize =>
      if avifSize ≥ svgSize then
        match fsUnlink fs1 avifPath with
        | .ok fs2 => ⟨fs2, false, false⟩
        | .error _ => ⟨fs1, true, true⟩
      else if rewriteFatal then ⟨fs1, true, true⟩
      else
        match fsUnlink fs1 file.path with
        | .ok fs2 => ⟨fs2, false, false⟩
        | .error _ => ⟨fs1, false, true⟩
    | _, _ => ⟨fs1, true, true⟩

/-- Evaluation helper: a pure-digit numeral parses to its integer value. -/
theorem jsNumber_int (s : String) (m : ℤ) (hne : s.data ≠ [])
    (h : parseDecScaled s.data = some (m, 0)) : jsNumber s = some (m : ℚ) := by
  unfold jsNumber
  rcases hl : s.data with _ | ⟨c, cs⟩
  · exact absurd hl hne
  · rw [hl] at h
    simp [h]

/-- C1: the claim demands literal-substring replacement, and the code's own
guard `content.includes(originalName)` checks literal containment — but the
replacement is `new RegExp(originalName, "g")` with no escaping.  At
`originalName = "icon (1).svg"` the compiled pattern (a capturing group and
an any-character wildcard) does not even match the literal occurrence, so
the file is rewritten with unchanged content, while the unrelated substring
`"icon 1xsvg"` is matched and corrupted.  The spec-modelled literal
replacement gives the result the claim requires. -/
theorem claim1_updateReferences_regex_not_literal :
    containsStr "icon (1).svg" "icon (1).svg" = true ∧
    processFile "icon (1).svg" "icon (1).avif" ⟨Except.ok "icon (1).svg", false⟩
      = FileOutcome.updated "icon (1).svg" ∧
    processFile "icon (1).svg" "icon (1).avif"
      ⟨Except.ok "use icon (1).svg or icon 1xsvg", false⟩
      = FileOutcome.updated "use icon (1).svg or icon (1).avif" ∧
    specLiteralReplaceAll "icon (1).svg" "icon (1).svg" "icon (1).avif"
      = "icon (1).avif" := by
  exact ⟨by decide, by decide, by decide, by decide⟩

/-- C2: the gate `if (avifStats.size >= svgStats.size)` decides
`KeepArtifact` exactly when the artifact is strictly smaller, and a tie
keeps the original. -/
theorem claim2_outcomeGate_strict :
    ∀ artifactSize sourceSize : Nat,
      (outcomeGate artifactSize sourceSize = Decision.KeepArtifact ↔
        artifactSize < sourceSize) ∧
      outcomeGate sourceSize sourceSize = Decision.KeepOriginal := by
  intro a s
  unfold outcomeGate
  constructor
  · split <;> simp_all
  · simp

/-- Witness for C2 at the spec's literal pair (900, 1000). -/
theorem claim2_outcomeGate_strict_witness :
    outcomeGate 900 1000 = Decision.KeepArtifact :=
  (claim2_outcomeGate_strict 900 1000).1.mpr (by decide)

/-- C5: the selector of `main` rejects any file under 10 KiB before ever
looking at the width attribute. -/
theorem claim5_size_threshold_excludes (currentDir file : String) (size : Nat)
    (content : String) (h : size < 10 * 1024) :
    selectorV1 currentDir file size content = none := by
  unfold selectorV1
  simp [h]

/-- Witness for C5: a 0-byte file with a perfectly good width is excluded. -/
theorem claim5_size_threshold_excludes_witness :
    selectorV1 "d" "a.svg" 0 "<svg width=\"100\">" = none :=
  claim5_size_threshold_excludes "d" "a.svg" 0 "<svg width=\"100\">" (by decide)

/-- C6 counterexample: a file whose width attribute captures the
non-numeric value `"abc"` is NOT excluded — `if (!width) return null` only
fires on a missing or empty capture, so both selector variants return a
candidate (whose computed width is `Number("abc") = NaN`). -/
theorem claim6_nonnumeric_width_not_excluded :
    selectorV1 "d" "a.svg" 10240 "<svg width=\"abc\">" ≠ none ∧
    selectorV2 "d" "a.svg" "<svg width=\"abc\"><image href=\"x\"/>" ≠ none := by
  exact ⟨by decide, by decide⟩

/-- C6 amended: a file with no `<svg width="..."` match, or an empty
captured value, is excluded by both selector variants regardless of size,
by returning `none` rather than raising. -/
theorem claim6_missing_width_excluded (currentDir file : String) (size : Nat)
    (content : String) (h : (execSvgWidth content).getD "" = "") :
    selectorV1 currentDir file size content = none ∧
    selectorV2 currentDir file content = none := by
  rcases he : execSvgWidth content with _ | w
  · constructor
    · unfold selectorV1
      simp [he]
    · unfold selectorV2
      simp [he]
  · rw [he] at h
    simp at h
    subst h
    constructor
    · unfold selectorV1
      simp [he]
    · unfold selectorV2
      simp [he]

/-- Witness for C6 (amended) on a widthless SVG. -/
theorem claim6_missing_width_excluded_witness :
    selectorV1 "d" "a.svg" 99999 "<svg height=\"3\">" = none :=
  (claim6_missing_width_excluded "d" "a.svg" 99999 "<svg height=\"3\">" (by decide)).1

/-- C10: `name.replace(".svg", ".avif")` with a plain-string pattern
replaces only the first occurrence of `".svg"`, so a base name with an
interior `".svg"` keeps its trailing extension. -/
theorem claim10_replace_first_occurrence :
    deriveNewName "my.svg-icon.svg" = "my.avif-icon.svg" ∧
    deriveNewName "icon.svg" = "icon.avif" ∧
    deriveNewName "a.svg.svg" = "a.avif.svg" := by
  exact ⟨by decide, by decide, by decide⟩

/-- C4: every candidate built by the selector carries the target width
`Math.round(3.12476 * Number(width) + 0.196661)` of its parsed declared
width; at the spec's literal pairs, W = 100 gives 313 and W = 500 gives
1563. -/
theorem claim4_target_width_formula :
    (∀ currentDir file size content cand ws w,
        selectorV1 currentDir file size content = some cand →
        execSvgWidth content = some ws → jsNumber ws = some w →
        cand.width = some (jsRound (312476 / 100000 * w + 196661 / 1000000))) ∧
    targetWidth 100 = 313 ∧ targetWidth 500 = 1563 := by
  refine ⟨?_, ?_, ?_⟩
  · intro cd f sz c cand ws w hsel hexec hnum
    unfold selectorV1 at hsel
    rw [hexec] at hsel
    by_cases hsz : sz < 10 * 1024
    · simp [hsz] at hsel
    · by_cases hws : ws = ""
      · simp [hsz, hws] at hsel
      · simp [hsz, hws] at hsel
        rw [← hsel]
        simp [hnum, targetWidth]
  · unfold targetWidth jsRound
    rw [Int.floor_eq_iff]
    norm_num
  · unfold targetWidth jsRound
    rw [Int.floor_eq_iff]
    norm_num

/-- Witness for C4 on a concrete 10 KiB SVG declaring `width="100"`. -/
theorem claim4_target_width_formula_witness :
    (Candidate.width ⟨"d/a.svg", "d", "a.svg", "<svg width=\"100\">",
        (jsNumber "100").map targetWidth⟩)
      = some (jsRound (312476 / 100000 * 100 + 196661 / 1000000)) :=
  claim4_target_width_formula.1 "d" "a.svg" 10240 "<svg width=\"100\">"
    ⟨"d/a.svg", "d", "a.svg", "<svg width=\"100\">", (jsNumber "100").map targetWidth⟩
    "100" 100
    (by
      norm_num [selectorV1,
        show execSvgWidth "<svg width=\"100\">" = some "100" from by decide,
        show ¬("100" = "") from by decide,
        show pathJoin "d" "a.svg" = "d/a.svg" from by decide,
        show pathDirname "d/a.svg" = "d" from by decide,
        show pathBasename "a.svg" = "a.svg" from by decide])
    (by decide)
    (by rw [jsNumber_int "100" 100 (by decide) (by decide)]; norm_num)

/-- C3: in `convert`, the original file is deleted (final `fs.unlink`)
exactly when the size gate keeps the artifact and `updateReferences`
returned without a fatal error; a session error, a gate rejection, or a
fatal rewrite error all leave the original in place. -/
theorem claim3_original_deleted_iff (fsIn : Fs) (file : Candidate)
    (session : SessionOutcome) (rewriteFatal : Bool) (svgSize : Nat)
    (hsvg : fsIn file.path = some svgSize)
    (hne : avifPathOf file ≠ file.path) :
    ((convertV1 fsIn file session rewriteFatal).fs file.path = none ↔
      ((∃ a, session = SessionOutcome.completes a ∧
          outcomeGate a svgSize = Decision.KeepArtifact) ∧
        rewriteFatal = false)) := by
  have hfp : file.path ≠ avifPathOf file := fun h => hne h.symm
  cases session with
  | raises =>
    simp [convertV1, hsvg]
  | completes a =>
    have h1 : fsWrite fsIn (avifPathOf file) a (avifPathOf file) = some a := by
      simp [fsWrite]
    have h2 : fsWrite fsIn (avifPathOf file) a file.path = some svgSize := by
      simp [fsWrite, hfp, hsvg]
    simp only [convertV1, h1, h2]
    by_cases hge : a ≥ svgSize
    · rw [if_pos hge]
      have hu : fsUnlink (fsWrite fsIn (avifPathOf file) a) (avifPathOf file)
          = Except.ok (fun q => if q = avifPathOf file then none
              else fsWrite fsIn (avifPathOf file) a q) := by
        simp [fsUnlink, h1]
      rw [hu]
      simp [hfp, h2, outcomeGate, hge]
    · rw [if_neg hge]
      by_cases hrf : rewriteFatal
      · simp [hrf, h2, outcomeGate, hge]
      · simp only [hrf, if_false]
        have hu : fsUnlink (fsWrite fsIn (avifPathOf file) a) file.path
            = Except.ok (fun q => if q = file.path then none
                else fsWrite fsIn (avifPathOf file) a q) := by
          simp [fsUnlink, h2]
        rw [hu]
        simp [outcomeGate, hge, hrf]
        omega

/-- Witness for C3: a 1000-byte original with a 500-byte artifact and a
clean rewrite ends with the original removed. -/
theorem claim3_original_deleted_iff_witness :
    (convertV1 (fun q => if q = "d/x.svg" then some 1000 else none)
      ⟨"d/x.svg", "d", "x.svg", "", some 313⟩
      (SessionOutcome.completes 500) false).fs "d/x.svg" = none :=
  (claim3_original_deleted_iff (fun q => if q = "d/x.svg" then some 1000 else none)
    ⟨"d/x.svg", "d", "x.svg", "", some 313⟩ (SessionOutcome.completes 500) false 1000
    (by decide) (by decide)).mpr ⟨⟨500, rfl, by decide⟩, rfl⟩

/-- C7 counterexample: after a `KeepOriginal` run the artifact is indeed
gone — but the cleanup is `fs.unlink`, which is not idempotent: a second
unlink of the already-removed artifact raises `ENOENT` instead of
succeeding. -/
theorem claim7_cleanup_not_idempotent :
    ((convertV1 (fun q => if q = "d/x.svg" then some 1000 else none)
        ⟨"d/x.svg", "d", "x.svg", "", some 313⟩
        (SessionOutcome.completes 1500) false).fs "d/x.avif" = none) ∧
    fsUnlink ((convertV1 (fun q => if q = "d/x.svg" then some 1000 else none)
        ⟨"d/x.svg", "d", "x.svg", "", some 313⟩
        (SessionOutcome.completes 1500) false).fs) "d/x.avif"
      = Except.error FsError.ENOENT := by
  exact ⟨by decide, by rfl⟩

/-- C7 amended: whenever the gate decides `KeepOriginal`, `convert`
unlinks the artifact immediately and returns cleanly, so the artifact no
longer exists afterward. -/
theorem claim7_artifact_removed_on_keep_original (fsIn : Fs) (file : Candidate)
    (a svgSize : Nat) (rewriteFatal : Bool)
    (hsvg : fsIn file.path = some svgSize)
    (hne : avifPathOf file ≠ file.path)
    (hg : outcomeGate a svgSize = Decision.KeepOriginal) :
    (convertV1 fsIn file (SessionOutcome.completes a) rewriteFatal).fs
        (avifPathOf file) = none ∧
    (convertV1 fsIn file (SessionOutcome.completes a) rewriteFatal).raised = false := by
  have hfp : file.path ≠ avifPathOf file := fun h => hne h.symm
  have hge : a ≥ svgSize := by
    by_contra hlt
    simp [outcomeGate, hlt] at hg
  have h1 : fsWrite fsIn (avifPathOf file) a (avifPathOf file) = some a := by
    simp [fsWrite]
  have h2 : fsWrite fsIn (avifPathOf file) a file.path = some svgSize := by
    simp [fsWrite, hfp, hsvg]
  simp only [convertV1, h1, h2]
  rw [if_pos hge]
  have hu : fsUnlink (fsWrite fsIn (avifPathOf file) a) (avifPathOf file)
      = Except.ok (fun q => if q = avifPathOf file then none
          else fsWrite fsIn (avifPathOf file) a q) := by
    simp [fsUnlink, h1]
  rw [hu]
  simp

/-- Witness for C7 (amended) with a 1500-byte artifact against a
1000-byte original. -/
theorem claim7_artifact_removed_on_keep_original_witness :
    (convertV1 (fun q => if q = "d/x.svg" then some 1000 else none)
      ⟨"d/x.svg", "d", "x.svg", "", some 313⟩
      (SessionOutcome.completes 1500) false).fs
        (avifPathOf ⟨"d/x.svg", "d", "x.svg", "", some 313⟩) = none :=
  (claim7_artifact_removed_on_keep_original
    (fun q => if q = "d/x.svg" then some 1000 else none)
    ⟨"d/x.svg", "d", "x.svg", "", some 313⟩ 1500 1000 false
    (by decide) (by decide) (by decide)).1

/-- C8 counterexample: `convert` has no `try`/`finally` — when a session
step raises after the browser is launched, the error propagates with the
browser still open. -/
theorem claim8_browser_leak_on_error :
    (convertV1 (fun _ => none) ⟨"d/x.svg", "d", "x.svg", "", some 313⟩
        SessionOutcome.raises false).raised = true ∧
    (convertV1 (fun _ => none) ⟨"d/x.svg", "d", "x.svg", "", some 313⟩
        SessionOutcome.raises false).browserOpen = true := by
  exact ⟨rfl, rfl⟩

/-- C8 amended: on every exit path of `convert` that does not raise —
the early return after a gate rejection, and the completion path — the
browser has been closed. -/
theorem claim8_browser_closed_on_normal_exit :
    ∀ (fsIn : Fs) (file : Candidate) (session : SessionOutcome) (rewriteFatal : Bool),
      (convertV1 fsIn file session rewriteFatal).raised = false →
      (convertV1 fsIn file session rewriteFatal).browserOpen = false := by
  intro fsIn file session rf
  cases session with
  | raises => intro h; simp [convertV1] at h
  | completes a =>
    simp only [convertV1]
    split
    · split
      · split <;> simp
      · split
        · simp
        · split <;> simp
    · simp

/-- Witness for C8 (amended) on a gate-reject run. -/
theorem claim8_browser_closed_on_normal_exit_witness :
    (convertV1 (fun q => if q = "d/x.svg" then some 1000 else none)
      ⟨"d/x.svg", "d", "x.svg", "", some 313⟩
      (SessionOutcome.completes 1500) false).browserOpen = false :=
  claim8_browser_closed_on_normal_exit
    (fun q => if q = "d/x.svg" then some 1000 else none)
    ⟨"d/x.svg", "d", "x.svg", "", some 313⟩
    (SessionOutcome.completes 1500) false (by decide)

/-- C9: the `try`/`catch` inside the `updateReferences` loop makes a
per-file failure local: the scan of a list with a failing file in the
middle still processes every earlier and later file exactly as it would
alone, and each file's outcome is its own `processFile` result. -/
theorem claim9_per_file_failure_not_fatal (originalName newName : String)
    (pre : List TextFile) (f : TextFile) (post : List TextFile)
    (hf : processFile originalName newName f = FileOutcome.failed) :
    updateReferences originalName newName (pre ++ f :: post)
      = updateReferences originalName newName pre
        ++ FileOutcome.failed :: updateReferences originalName newName post ∧
    updateReferences originalName newName post
      = post.map (processFile originalName newName) := by
  constructor
  · induction pre with
    | nil => simp [updateReferences, hf]
    | cons g gs ih => simp [updateReferences, ih]
  · induction post with
    | nil => simp [updateReferences]
    | cons g gs ih => simp [updateReferences, ih]

/-- Witness for C9: an unreadable file is logged as failed while the next
file, which references `a.svg`, is still rewritten. -/
theorem claim9_per_file_failure_not_fatal_witness :
    updateReferences "a.svg" "a.avif"
        ([] ++ TextFile.mk (Except.error ()) false
          :: [TextFile.mk (Except.ok "see a.svg here") false])
      = updateReferences "a.svg" "a.avif" []
        ++ FileOutcome.failed
          :: updateReferences "a.svg" "a.avif"
              [TextFile.mk (Except.ok "see a.svg here") false] :=
  (claim9_per_file_failure_not_fatal "a.svg" "a.avif" []
    (TextFile.mk (Except.error ()) false)
    [TextFile.mk (Except.ok "see a.svg here") false] (by decide)).1
